import Mathlib

/-!
Shallow embedding of `unittest-git-secrets.py` (brave/git-secrets-unittest).

The script is pure orchestration: it shells out to external commands
(`git init`, `git add`, `git commit`, `git-secrets`), generates random
credential-shaped strings, and asserts on exit behaviour.  We embed it by
making every external effect an explicit input or output:

* results of external commands become `CmdResult` values supplied by an
  environment;
* `random.choice` becomes selection by an arbitrary index sequence
  `pick : Nat → Nat`, reduced modulo the alphabet length;
* `logging.*` calls become `LogEntry` values collected in the result;
* `exit(n)` / `sys.exit(n)` become `Except Nat` errors;
* filesystem writes become `FileWrite` events;
* the unittest lifecycle (`__init__` → `setUp` → test method → `tearDown`)
  becomes an explicit event trace.
-/

namespace GitSecretsUnittest

/-- Python standard library `string.ascii_uppercase`. -/
def ascii_uppercase : List Char :=
  "ABCDEFGHIJKLMNOPQRSTUVWXYZ".toList

/-- Python standard library `string.ascii_lowercase`. -/
def ascii_lowercase : List Char :=
  "abcdefghijklmnopqrstuvwxyz".toList

/-- Python standard library `string.digits`. -/
def digits : List Char :=
  "0123456789".toList

/-- Python `random.choice(chars)`: selects one element of the non-empty
sequence `chars`.  The randomness is externalised as an arbitrary natural
number `r`, reduced modulo the length of the sequence. -/
def randomChoice (chars : List Char) (r : Nat) : Char :=
  chars.getD (r % chars.length) 'A'

/-- The alphabet built in `generate_random_aws_secret_key`: uppercase and
lowercase ASCII letters, digits, slash, plus and equals. -/
def secretChars : List Char :=
  ascii_uppercase ++ ascii_lowercase ++ digits ++ ['/'] ++ ['+'] ++ ['=']

/-- Function `TestAwsPatterns.generate_random_aws_secret_key`: joins forty
draws of `random.choice` over `secretChars`.  The draws are externalised as
`pick 0 .. pick 39`. -/
def generate_random_aws_secret_key (pick : Nat → Nat) : String :=
  String.mk ((List.range 40).map (fun i => randomChoice secretChars (pick i)))

/-- The alphabet built in `generate_random_aws_access_key`: uppercase ASCII
letters and digits. -/
def accessChars : List Char :=
  ascii_uppercase ++ digits

/-- Function `TestAwsPatterns.generate_random_aws_access_key`: the fixed
four-character marker `AKIA` followed by sixteen draws of `random.choice`
over `accessChars`, externalised as `pick 0 .. pick 15`. -/
def generate_random_aws_access_key (pick : Nat → Nat) : String :=
  "AKIA" ++ String.mk ((List.range 16).map (fun i => randomChoice accessChars (pick i)))

/-- The character set the spec names for secret-key-shaped strings:
uppercase letters, lowercase letters, digits, and `/`, `+`, `=`.
Stated via character ranges, independently of `secretChars`. -/
def isSecretKeyChar (c : Char) : Bool :=
  ('A' ≤ c && c ≤ 'Z') || ('a' ≤ c && c ≤ 'z') || ('0' ≤ c && c ≤ '9')
    || c = '/' || c = '+' || c = '='

/-- The character set the spec names for the 16 random characters of
access-key-shaped strings: uppercase letters and digits. -/
def isAccessKeyChar (c : Char) : Bool :=
  ('A' ≤ c && c ≤ 'Z') || ('0' ≤ c && c ≤ '9')

/-- Severity of a `logging` call. -/
inductive LogLevel where
  | debug
  | info
  | error
deriving DecidableEq, Repr

/-- One `logging.debug` / `logging.info` / `logging.error` call: severity and
message. -/
structure LogEntry where
  level : LogLevel
  msg : String
deriving DecidableEq, Repr

/-- Outcome of one external command run through
`subprocess.check_output(cmd, shell=True, stderr=subprocess.STDOUT)`:
the exit code of the command and its captured combined output.
`check_output` raises `CalledProcessError` exactly when the exit code is
non-zero. -/
structure CmdResult where
  exitCode : Nat
  output : String
deriving DecidableEq, Repr

/-- Function `TestAwsPatterns.which_git_secrets`.  The environment supplies
`whichFound` (the result of `shutil.which` on the scanner name: `none` when
absent from the search path) and `accessXOk` (the result of
`os.access(found, os.X_OK)`).  `exit(1)` becomes `Except.error 1`; falling
off the end of the function becomes `Except.ok ()`. -/
def which_git_secrets (whichFound : Option String) (accessXOk : String → Bool) :
    Except Nat Unit :=
  match whichFound with
  | none => Except.error 1
  | some found =>
      if accessXOk found then Except.ok () else Except.error 1

/-- Result of `TestAwsPatterns.trigger_hook`: the returned `marker` boolean
and the log entries emitted along the way. -/
structure TriggerResult where
  marker : Bool
  logs : List LogEntry
deriving DecidableEq, Repr

/-- Function `TestAwsPatterns.trigger_hook`.  The environment supplies the
results of the two external commands: `addRes` for `git add <file>` and
`commitRes` for `git commit -m ...`.  A failing add is only logged at error
level; `marker` is set to `true` exactly when the commit command exits
zero, and a failing commit is logged at informational level with its
captured output. -/
def trigger_hook (f : String) (addRes commitRes : CmdResult) : TriggerResult :=
  let addLogs :=
    [⟨LogLevel.debug, "Running command: git add " ++ f⟩] ++
    (if addRes.exitCode = 0 then []
     else [⟨LogLevel.error, "Could not run command git add: " ++ addRes.output⟩])
  let commitDebug : List LogEntry :=
    [⟨LogLevel.debug, "Running command: git commit -m test pre-commit hook"⟩]
  if commitRes.exitCode = 0 then
    { marker := true, logs := addLogs ++ commitDebug }
  else
    { marker := false
      logs := addLogs ++ commitDebug ++
        [⟨LogLevel.info, "Command git commit return code: " ++ toString commitRes.exitCode⟩,
         ⟨LogLevel.info, "Command output: " ++ commitRes.output⟩] }

/-- The two-line stanza built in `TestAwsPatterns.disable_gpgsign`:
`[commit]` followed by a tab-indented `gpgsign = false` line. -/
def gpgsign_config_string : String :=
  "[commit]" ++ "\n" ++ "\t" ++ "gpgsign = false"

/-- Function `TestAwsPatterns.disable_gpgsign`, viewed through the contents of
the `.git/config` file it appends to: opening in append mode and writing the
stanza turns contents `config` into `config ++ gpgsign_config_string`. -/
def disable_gpgsign (config : String) : String :=
  config ++ gpgsign_config_string

/-- Observable filesystem / process events of the scenario, in program
order. -/
inductive Event where
  | mkdtemp (path : String)
  | processExit (code : Nat)
  | runCmd (cmd : String)
  | fileAppend (path content : String)
  | fileWrite (path content : String)
  | chdir (path : String)
  | assertion (ok : Bool)
  | rmtree (path : String)
deriving DecidableEq, Repr

/-- Environment for `TestAwsPatterns.create_repo`: whether `path/.git`
already exists as a directory, the result of the `git init` command, and the
contents of the config file `git init` leaves behind when it succeeds. -/
structure RepoEnv where
  gitDirExists : Bool
  initRes : CmdResult
  initialConfig : String
deriving DecidableEq, Repr

/-- Result of `TestAwsPatterns.create_repo`: the Python return value (`none`
models returning `None`, `some false` models `return False`), the log
entries, the external-command and filesystem events, and the final contents
of the config file (`none` when init failed and no config was touched). -/
structure RepoResult where
  ret : Option Bool
  logs : List LogEntry
  events : List Event
  finalConfig : Option String
deriving DecidableEq, Repr

/-- Function `TestAwsPatterns.create_repo`.  If `path/.git` already exists it
logs an error and continues; it then runs `git init path`; on a non-zero
exit it logs the command and its captured output at error level and returns
`False`; on success it calls `disable_gpgsign`, appending the stanza to the
config file, and (in debug mode) logs the config contents. -/
def create_repo (debug : Bool) (path : String) (env : RepoEnv) : RepoResult :=
  let preLogs : List LogEntry :=
    (if env.gitDirExists then
      [⟨LogLevel.error, "Git directory " ++ path ++ "/.git already exists! Exiting..."⟩]
     else []) ++
    [⟨LogLevel.debug, "Running command: git init " ++ path⟩]
  let initCmd := Event.runCmd ("git init " ++ path)
  if env.initRes.exitCode = 0 then
    { ret := none
      logs := preLogs ++ [⟨LogLevel.debug, env.initRes.output⟩] ++
        (if debug then
          [⟨LogLevel.debug, ".git/config file contents: " ++ disable_gpgsign env.initialConfig⟩]
         else [])
      events := [initCmd,
        Event.fileAppend (path ++ "/.git/config") gpgsign_config_string]
      finalConfig := some (disable_gpgsign env.initialConfig) }
  else
    { ret := some false
      logs := preLogs ++
        [⟨LogLevel.error, "Command git init " ++ path ++ " return code: " ++ toString env.initRes.exitCode⟩,
         ⟨LogLevel.error, "Command output: " ++ env.initRes.output⟩]
      events := [initCmd]
      finalConfig := none }

/-- Function `TestAwsPatterns.remove_repo`.  The environment supplies the
outcome of `shutil.rmtree(path)`: `none` when it succeeds, `some e` when it
raises an exception rendered as `e`.  The catch-all handler turns every
exception into logging plus `return False`; on success the function returns
`None`.  Being a total Lean function, it raises nothing. -/
def remove_repo (path : String) (rmtreeExc : Option String) :
    Option Bool × List LogEntry :=
  match rmtreeExc with
  | none => (none, [])
  | some e =>
      (some false, [⟨LogLevel.error, "Cannot remove directory " ++ path ++ ": " ++ e⟩])

/-- Outcome of `argparse.ArgumentParser.parse_args` on the actual process
arguments: either a parsed namespace carrying the debug flag, or the
`SystemExit(code)` that argparse raises on a parse error (code 2) or on
`--help` (code 0). -/
inductive ArgparseOutcome where
  | ok (debug : Bool)
  | sysExit (code : Nat)
deriving DecidableEq, Repr

/-- Function `parse_args` of the script.  The bare `except:` catches the
`SystemExit` raised by argparse and replaces it with `sys.exit(0)`, so every
parse failure terminates the process with status 0; a successful parse
returns the options. -/
def parse_args (r : ArgparseOutcome) : Except Nat Bool :=
  match r with
  | ArgparseOutcome.ok d => Except.ok d
  | ArgparseOutcome.sysExit _ => Except.error 0

/-- Environment for one full run of the `Test_01_GitPreCommitHook` scenario:
everything the outside world decides. -/
structure ScenarioEnv where
  tmpPath : String
  savedPath : String
  whichFound : Option String
  accessXOk : String → Bool
  repoEnv : RepoEnv
  pick : Nat → Nat
  chdirOk : Bool
  chdirBackOk : Bool
  addRes : CmdResult
  commitRes : CmdResult
  rmtreeExc : Option String

/-- The fixed name of the payload file (`self.outfile` in `__init__`). -/
def outfile : String := "test.txt"

/-- The payload line written in `setUp`:
`aws_secret_access_key = <generated secret>`. -/
def prohibited_pattern (pick : Nat → Nat) : String :=
  "aws_secret_access_key = " ++ generate_random_aws_secret_key pick

/-- Method `Test_01_GitPreCommitHook.test_git_pre_commit_hook`, reduced to
its verdict: `assertFalse` holds exactly when `trigger_hook` returns
`False`, so the test method passes iff the commit command exited
non-zero. -/
def test_git_pre_commit_hook (env : ScenarioEnv) : Bool :=
  !(trigger_hook outfile env.addRes env.commitRes).marker

/-- Event trace of the test method: the attempted `chdir` into the fixture
(failures only logged, so no event), the assertion on `trigger_hook`, and —
only when the assertion did not raise — the `chdir` back (there is no
`finally`). -/
def testMethodTrace (env : ScenarioEnv) : List Event :=
  (if env.chdirOk then [Event.chdir env.tmpPath] else []) ++
  [Event.runCmd ("git add " ++ outfile),
   Event.runCmd ("git commit -m " ++ "test pre-commit hook"),
   Event.assertion (test_git_pre_commit_hook env)] ++
  (if test_git_pre_commit_hook env then
    (if env.chdirBackOk then [Event.chdir env.savedPath] else [])
   else [])

/-- Event trace of `tearDown`: `remove_repo`, plus an extra error log (not an
event) when removal failed. -/
def tearDownTrace (env : ScenarioEnv) : List Event :=
  [Event.rmtree env.tmpPath]

/-- Event trace of one full scenario run, following the unittest lifecycle:
`__init__` calls `tempfile.mkdtemp()` (creating the temporary fixture
directory); `setUp` runs `which_git_secrets` — modelled, as the spec reads
it, as terminating the process when it calls `exit(1)` — then `create_repo`
and, unless that returned `False`, writes the payload file; then the test
method and `tearDown` run. -/
def scenarioTrace (env : ScenarioEnv) : List Event :=
  Event.mkdtemp env.tmpPath ::
  (match which_git_secrets env.whichFound env.accessXOk with
   | Except.error c => [Event.processExit c]
   | Except.ok _ =>
      let r := create_repo false env.tmpPath env.repoEnv
      r.events ++
      (if r.ret = some false then []
       else [Event.fileWrite (env.tmpPath ++ "/" ++ outfile) (prohibited_pattern env.pick)]) ++
      testMethodTrace env ++ tearDownTrace env)

/-- Recogniser for payload-file-creation events in a trace. -/
def isFileWrite : Event → Bool
  | Event.fileWrite _ _ => true
  | _ => false

/-- Recogniser for external-command events in a trace. -/
def isRunCmd : Event → Bool
  | Event.runCmd _ => true
  | _ => false

/-- A string is a single line when it contains no newline character. -/
def isSingleLine (s : String) : Bool :=
  !s.toList.contains '\n'

/-- Sample location of the scanner binary, used to instantiate theorems on a
concrete environment. -/
def gitSecretsPath : String := "/usr/local/bin/git-secrets"

/-- Sample temporary directory returned by `tempfile.mkdtemp`. -/
def tmpFixturePath : String := "/tmp/tmp3a1b2c"

/-- Sample working directory saved by the test method. -/
def savedWorkPath : String := "/home/user"

/-- Sample successful command result. -/
def sampleCmdOk : CmdResult := ⟨0, "ok"⟩

/-- Sample failing command result, as produced by a commit the hook
blocked. -/
def sampleCmdFail : CmdResult := ⟨1, "test.txt:1 ERROR prohibited pattern, OK"⟩

/-- Sample rmtree exception text. -/
def sampleRmErr : String := "Permission denied"

/-- Sample environment for `create_repo` in which init succeeds. -/
def sampleRepoEnv : RepoEnv := ⟨false, ⟨0, "Initialized empty Git repository"⟩, "[core]"⟩

/-- Sample environment for `create_repo` in which the target already holds a
git directory and init fails. -/
def sampleRepoEnvBad : RepoEnv := ⟨true, ⟨128, "fatal: cannot init"⟩, ""⟩

/-- Sample scenario environment: scanner present and executable, repository
init succeeds, the add succeeds and the commit is blocked by the hook. -/
def sampleEnv : ScenarioEnv :=
  ⟨tmpFixturePath, savedWorkPath, some gitSecretsPath, fun _ => true,
   sampleRepoEnv, fun _ => 0, true, true, sampleCmdOk, sampleCmdFail, none⟩

/-- Sample scenario environment in which the hook is NOT configured, so the
commit succeeds. -/
def sampleEnvNoHook : ScenarioEnv :=
  ⟨tmpFixturePath, savedWorkPath, some gitSecretsPath, fun _ => true,
   sampleRepoEnv, fun _ => 0, true, true, sampleCmdOk, sampleCmdOk, none⟩

/-- Sample scenario environment in which the scanner binary is absent from
the search path. -/
def envNoScanner : ScenarioEnv :=
  ⟨tmpFixturePath, savedWorkPath, none, fun _ => true,
   sampleRepoEnv, fun _ => 0, true, true, sampleCmdOk, sampleCmdFail, none⟩

lemma randomChoice_mem (chars : List Char) (r : Nat) (h : chars ≠ []) :
    randomChoice chars r ∈ chars := by
  unfold randomChoice
  have hlen : 0 < chars.length := List.length_pos.mpr h
  have hlt : r % chars.length < chars.length := Nat.mod_lt _ hlen
  rw [List.getD_eq_getElem _ _ hlt]
  exact List.getElem_mem hlt

lemma secretChars_allowed : ∀ c ∈ secretChars, isSecretKeyChar c = true := by
  decide

lemma accessChars_allowed : ∀ c ∈ accessChars, isAccessKeyChar c = true := by
  decide

lemma akia_append_toList (l : List Char) :
    ("AKIA" ++ String.mk l).toList = 'A' :: 'K' :: 'I' :: 'A' :: l := by
  simp [String.toList, String.mk]

lemma trigger_hook_spec_marker (f : String) (addRes commitRes : CmdResult) :
    (trigger_hook f addRes commitRes).marker = true ↔ commitRes.exitCode = 0 := by
  by_cases h : commitRes.exitCode = 0 <;> simp [trigger_hook, h]

lemma append_mk_toList (a : String) (l : List Char) :
    (a ++ String.mk l).toList = a.toList ++ l := by
  simp [String.toList, String.mk]

lemma secret_key_len (pick : Nat → Nat) :
    (generate_random_aws_secret_key pick).length = 40 := by
  simp [generate_random_aws_secret_key, String.length]

lemma secret_key_chars (pick : Nat → Nat) :
    ∀ c ∈ (generate_random_aws_secret_key pick).toList, isSecretKeyChar c = true := by
  intro c hc
  simp only [generate_random_aws_secret_key, String.toList, String.mk,
    List.mem_map] at hc
  obtain ⟨i, _, rfl⟩ := hc
  exact secretChars_allowed _ (randomChoice_mem _ _ (by decide))

lemma isSecretKeyChar_ne_newline (c : Char) (h : isSecretKeyChar c = true) :
    c ≠ '\n' := by
  intro hc
  subst hc
  exact absurd h (by decide)

lemma prohibited_pattern_toList (pick : Nat → Nat) :
    (prohibited_pattern pick).toList
      = "aws_secret_access_key = ".toList ++ (generate_random_aws_secret_key pick).toList := by
  unfold prohibited_pattern generate_random_aws_secret_key
  rw [append_mk_toList]
  simp [String.toList, String.mk]

lemma prohibited_pattern_singleLine (pick : Nat → Nat) :
    isSingleLine (prohibited_pattern pick) = true := by
  have hmem : ¬ '\n' ∈ (prohibited_pattern pick).toList := by
    rw [prohibited_pattern_toList]
    intro hmem
    rcases List.mem_append.mp hmem with h | h
    · revert h; decide
    · exact isSecretKeyChar_ne_newline _ (secret_key_chars pick _ h) rfl
  simp only [isSingleLine, Bool.not_eq_eq_eq_not, Bool.not_true]
  rw [← Bool.not_eq_true]
  intro hcont
  exact hmem (List.mem_of_elem_eq_true hcont)

lemma filter_fileWrite_create_repo (debug : Bool) (path : String) (env : RepoEnv) :
    (create_repo debug path env).events.filter isFileWrite = [] := by
  by_cases h : env.initRes.exitCode = 0 <;> simp [create_repo, h, isFileWrite]

lemma filter_fileWrite_testMethod (env : ScenarioEnv) :
    (testMethodTrace env).filter isFileWrite = [] := by
  unfold testMethodTrace
  by_cases h1 : env.chdirOk <;> by_cases h2 : env.chdirBackOk <;>
    by_cases h3 : test_git_pre_commit_hook env <;>
      simp [h1, h2, h3, isFileWrite]

end GitSecretsUnittest

namespace GitSecretsUnittest

/-- C2: every string returned by `generate_random_aws_secret_key` has length
exactly 40 and every character is an uppercase letter, a lowercase letter, a
digit, or one of `/`, `+`, `=`. -/
theorem secret_key_length_and_alphabet (pick : Nat → Nat) :
    (generate_random_aws_secret_key pick).length = 40 ∧
    ∀ c ∈ (generate_random_aws_secret_key pick).toList, isSecretKeyChar c = true :=
  ⟨secret_key_len pick, secret_key_chars pick⟩

/-- C9: every string returned by `generate_random_aws_access_key` has length
exactly 20, starts with the fixed prefix `AKIA`, and each of the remaining 16
characters is an uppercase letter or a digit. -/
theorem access_key_length_and_alphabet (pick : Nat → Nat) :
    (generate_random_aws_access_key pick).length = 20 ∧
    (generate_random_aws_access_key pick).toList.take 4 = "AKIA".toList ∧
    ∀ c ∈ ((generate_random_aws_access_key pick).toList.drop 4),
      isAccessKeyChar c = true := by
  have hkey : (generate_random_aws_access_key pick).toList
      = 'A' :: 'K' :: 'I' :: 'A'
        :: (List.range 16).map (fun i => randomChoice accessChars (pick i)) := by
    unfold generate_random_aws_access_key
    exact akia_append_toList _
  refine ⟨?_, ?_, ?_⟩
  · show (generate_random_aws_access_key pick).toList.length = 20
    rw [hkey]; simp
  · rw [hkey]; simp [String.toList]
  · intro c hc
    rw [hkey] at hc
    simp only [List.drop, List.mem_map] at hc
    obtain ⟨i, _, rfl⟩ := hc
    exact accessChars_allowed _ (randomChoice_mem _ _ (by decide))

/-- C3: `trigger_hook` returns `true` exactly when the commit command exits
zero; the returned value does not depend on the add command result, whose
failure is only logged at error level and swallowed (the embedding is a
total function, so nothing is raised). -/
theorem trigger_hook_marker_iff_commit_zero (f : String) (addRes commitRes : CmdResult) :
    ((trigger_hook f addRes commitRes).marker = true ↔ commitRes.exitCode = 0) ∧
    (∀ addRes2 : CmdResult,
      (trigger_hook f addRes2 commitRes).marker = (trigger_hook f addRes commitRes).marker) ∧
    (addRes.exitCode ≠ 0 →
      (⟨LogLevel.error, "Could not run command git add: " ++ addRes.output⟩ : LogEntry)
        ∈ (trigger_hook f addRes commitRes).logs) := by
  refine ⟨?_, ?_, ?_⟩
  · by_cases h : commitRes.exitCode = 0 <;> simp [trigger_hook, h]
  · intro addRes2
    by_cases h : commitRes.exitCode = 0 <;> simp [trigger_hook, h]
  · intro ha
    by_cases h : commitRes.exitCode = 0 <;> simp [trigger_hook, h, ha]

/-- Witness for C3 at a concrete input: a failing add with a blocked
commit. -/
theorem trigger_hook_marker_iff_commit_zero_witness :
    (⟨LogLevel.error, "Could not run command git add: " ++ "boom"⟩ : LogEntry)
      ∈ (trigger_hook outfile ⟨1, "boom"⟩ sampleCmdFail).logs :=
  (trigger_hook_marker_iff_commit_zero outfile ⟨1, "boom"⟩ sampleCmdFail).2.2 (by decide)

/-- C4: `which_git_secrets` terminates the process with a non-zero status
when the scanner is absent from the search path, and when it is present but
not executable; when it is present and executable it returns normally. -/
theorem which_git_secrets_exit_policy (whichFound : Option String) (accessXOk : String → Bool) :
    (whichFound = none → which_git_secrets whichFound accessXOk = Except.error 1) ∧
    (∀ found, whichFound = some found → accessXOk found = false →
      which_git_secrets whichFound accessXOk = Except.error 1) ∧
    (∀ found, whichFound = some found → accessXOk found = true →
      which_git_secrets whichFound accessXOk = Except.ok ()) ∧
    (∀ c, which_git_secrets whichFound accessXOk = Except.error c → c ≠ 0) := by
  refine ⟨?_, ?_, ?_, ?_⟩
  · rintro rfl; rfl
  · rintro found rfl hx; simp [which_git_secrets, hx]
  · rintro found rfl hx; simp [which_git_secrets, hx]
  · intro c hc
    cases hw : whichFound with
    | none => rw [hw] at hc; simp [which_git_secrets] at hc; omega
    | some found =>
        rw [hw] at hc
        by_cases hx : accessXOk found = true <;>
          simp [which_git_secrets, hx] at hc
        omega

/-- Witness for C4 at concrete inputs: absent, present-not-executable, and
present-executable scanners. -/
theorem which_git_secrets_exit_policy_witness :
    which_git_secrets none (fun _ => true) = Except.error 1 ∧
    which_git_secrets (some gitSecretsPath) (fun _ => false) = Except.error 1 ∧
    which_git_secrets (some gitSecretsPath) (fun _ => true) = Except.ok () :=
  ⟨(which_git_secrets_exit_policy none (fun _ => true)).1 rfl,
   (which_git_secrets_exit_policy (some gitSecretsPath) (fun _ => false)).2.1
     gitSecretsPath rfl rfl,
   (which_git_secrets_exit_policy (some gitSecretsPath) (fun _ => true)).2.2.1
     gitSecretsPath rfl rfl⟩

/-- C7: `remove_repo` is a total function — every rmtree exception is caught,
logged at error level, and converted into the return value `False`; on
success it returns `None` with no log. -/
theorem remove_repo_total_catch (path : String) (rmtreeExc : Option String) :
    ((remove_repo path rmtreeExc).1 = if rmtreeExc.isSome then some false else none) ∧
    (∀ e, rmtreeExc = some e →
      (remove_repo path rmtreeExc).1 = some false ∧
      (remove_repo path rmtreeExc).2 =
        [⟨LogLevel.error, "Cannot remove directory " ++ path ++ ": " ++ e⟩]) := by
  cases rmtreeExc <;> simp [remove_repo]

/-- Witness for C7 at a concrete input: a permission error during removal is
converted to the failure indicator. -/
theorem remove_repo_total_catch_witness :
    (remove_repo tmpFixturePath (some sampleRmErr)).1 = some false :=
  ((remove_repo_total_catch tmpFixturePath (some sampleRmErr)).2 sampleRmErr rfl).1

/-- C10: when argparse fails to parse the command line it raises SystemExit,
the bare except handler catches it and calls sys.exit(0), so the process
terminates with the success status 0; a successful parse returns the
options. -/
theorem parse_args_failure_exits_zero (code : Nat) (d : Bool) :
    parse_args (ArgparseOutcome.sysExit code) = Except.error 0 ∧
    parse_args (ArgparseOutcome.ok d) = Except.ok d :=
  ⟨rfl, rfl⟩

/-- C1: the test method passes exactly when the trigger outcome is false;
a zero-exit commit (hook not configured) makes `trigger_hook` return `true`
and the scenario report failure, and a blocked commit makes the assertion
hold and the scenario pass. -/
theorem test_passes_iff_commit_blocked (env : ScenarioEnv) :
    (test_git_pre_commit_hook env = true ↔
      (trigger_hook outfile env.addRes env.commitRes).marker = false) ∧
    (env.commitRes.exitCode = 0 →
      (trigger_hook outfile env.addRes env.commitRes).marker = true ∧
      test_git_pre_commit_hook env = false) ∧
    (env.commitRes.exitCode ≠ 0 → test_git_pre_commit_hook env = true) := by
  refine ⟨?_, ?_, ?_⟩
  · cases h : (trigger_hook outfile env.addRes env.commitRes).marker <;>
      simp [test_git_pre_commit_hook, h]
  · intro h0
    have hm := (trigger_hook_spec_marker outfile env.addRes env.commitRes).mpr h0
    exact ⟨hm, by simp [test_git_pre_commit_hook, hm]⟩
  · intro h0
    have hm : (trigger_hook outfile env.addRes env.commitRes).marker = false := by
      cases h : (trigger_hook outfile env.addRes env.commitRes).marker
      · rfl
      · exact absurd ((trigger_hook_spec_marker outfile env.addRes env.commitRes).mp h) h0
    simp [test_git_pre_commit_hook, hm]

/-- Witness for C1 at two concrete inputs: the hook-blocked commit passes the
test, the hook-missing commit fails it. -/
theorem test_passes_iff_commit_blocked_witness :
    test_git_pre_commit_hook sampleEnv = true ∧
    test_git_pre_commit_hook sampleEnvNoHook = false :=
  ⟨(test_passes_iff_commit_blocked sampleEnv).2.2 (by decide),
   ((test_passes_iff_commit_blocked sampleEnvNoHook).2.1 (by decide)).2⟩

/-- C6: `create_repo` logs an error but still runs the init command when a
git directory already exists under the path; when init exits non-zero it
logs the command and its captured output at error level and returns `False`;
when init succeeds it returns `None` and the signing-disabled stanza is
appended to the new config file. -/
theorem create_repo_error_handling (debug : Bool) (path : String) (env : RepoEnv) :
    (env.gitDirExists = true →
      (⟨LogLevel.error, "Git directory " ++ path ++ "/.git already exists! Exiting..."⟩ : LogEntry)
        ∈ (create_repo debug path env).logs ∧
      Event.runCmd ("git init " ++ path) ∈ (create_repo debug path env).events) ∧
    (env.initRes.exitCode ≠ 0 →
      (create_repo debug path env).ret = some false ∧
      (⟨LogLevel.error, "Command git init " ++ path ++ " return code: "
          ++ toString env.initRes.exitCode⟩ : LogEntry)
        ∈ (create_repo debug path env).logs ∧
      (⟨LogLevel.error, "Command output: " ++ env.initRes.output⟩ : LogEntry)
        ∈ (create_repo debug path env).logs) ∧
    (env.initRes.exitCode = 0 →
      (create_repo debug path env).ret = none ∧
      (create_repo debug path env).finalConfig
        = some (env.initialConfig ++ gpgsign_config_string)) := by
  refine ⟨?_, ?_, ?_⟩
  · intro hg
    by_cases h : env.initRes.exitCode = 0 <;> simp [create_repo, h, hg]
  · intro h
    simp [create_repo, h]
  · intro h
    simp [create_repo, h, disable_gpgsign]

/-- Witness for C6 at concrete inputs: a pre-existing git directory with a
failing init, and a clean path with a succeeding init. -/
theorem create_repo_error_handling_witness :
    (create_repo false tmpFixturePath sampleRepoEnvBad).ret = some false ∧
    (create_repo false tmpFixturePath sampleRepoEnv).finalConfig
      = some (sampleRepoEnv.initialConfig ++ gpgsign_config_string) :=
  ⟨((create_repo_error_handling false tmpFixturePath sampleRepoEnvBad).2.1 (by decide)).1,
   ((create_repo_error_handling false tmpFixturePath sampleRepoEnv).2.2 (by decide)).2⟩

/-- C5 counterexample: with the scanner absent from the search path, the
scenario trace at a concrete environment is mkdtemp followed by the exit —
the temporary fixture directory is created by `tempfile.mkdtemp()` in the
test constructor, so it already exists at the point of the non-zero exit,
contrary to the claim that no such directory is created before that
point. -/
theorem mkdtemp_precedes_scanner_exit :
    scenarioTrace envNoScanner = [Event.mkdtemp tmpFixturePath, Event.processExit 1] ∧
    (scenarioTrace envNoScanner).head? = some (Event.mkdtemp tmpFixturePath) :=
  ⟨rfl, rfl⟩

/-- C5 (amended): when the scanner is absent from the search path the
process exits with the non-zero status 1 before the repository is
initialized and before any payload file is written — the trace holds no
command and no file-write event — but the temporary fixture directory was
already created by mkdtemp in the test constructor, before the exit. -/
theorem scanner_missing_exits_before_repo_creation (env : ScenarioEnv)
    (h : env.whichFound = none) :
    scenarioTrace env = [Event.mkdtemp env.tmpPath, Event.processExit 1] ∧
    (∀ e ∈ scenarioTrace env, isRunCmd e = false ∧ isFileWrite e = false) := by
  have hwhich : which_git_secrets env.whichFound env.accessXOk = Except.error 1 := by
    rw [h]
    rfl
  have ht : scenarioTrace env = [Event.mkdtemp env.tmpPath, Event.processExit 1] := by
    unfold scenarioTrace
    rw [hwhich]
  refine ⟨ht, ?_⟩
  rw [ht]
  intro e he
  rcases List.mem_cons.mp he with rfl | he2
  · exact ⟨rfl, rfl⟩
  · rcases List.mem_cons.mp he2 with rfl | he3
    · exact ⟨rfl, rfl⟩
    · exact absurd he3 (List.not_mem_nil e)

/-- Witness for C5 at the concrete scanner-missing environment. -/
theorem scanner_missing_exits_before_repo_creation_witness :
    scenarioTrace envNoScanner
      = [Event.mkdtemp envNoScanner.tmpPath, Event.processExit 1] :=
  (scanner_missing_exits_before_repo_creation envNoScanner rfl).1

/-- C8: when the scanner check passed and `create_repo` did not return
`False`, the scenario writes exactly one payload file, named `test.txt`,
whose content is the single line `aws_secret_access_key = ` followed by the
generated secret, which is secret-key shaped; no other write event ever
touches it. -/
theorem setup_writes_single_payload_file (env : ScenarioEnv)
    (hw : which_git_secrets env.whichFound env.accessXOk = Except.ok ())
    (hr : (create_repo false env.tmpPath env.repoEnv).ret ≠ some false) :
    (scenarioTrace env).filter isFileWrite
      = [Event.fileWrite (env.tmpPath ++ "/" ++ outfile) (prohibited_pattern env.pick)] ∧
    outfile = "test.txt" ∧
    prohibited_pattern env.pick
      = "aws_secret_access_key = " ++ generate_random_aws_secret_key env.pick ∧
    isSingleLine (prohibited_pattern env.pick) = true ∧
    (generate_random_aws_secret_key env.pick).length = 40 ∧
    (∀ c ∈ (generate_random_aws_secret_key env.pick).toList, isSecretKeyChar c = true) := by
  refine ⟨?_, rfl, rfl, prohibited_pattern_singleLine env.pick, secret_key_len env.pick,
    secret_key_chars env.pick⟩
  unfold scenarioTrace
  rw [hw]
  simp only [List.filter_cons, List.filter_append, filter_fileWrite_create_repo,
    filter_fileWrite_testMethod, tearDownTrace, if_neg hr]
  simp [isFileWrite]

/-- Witness for C8 at the concrete happy-path environment. -/
theorem setup_writes_single_payload_file_witness :
    (scenarioTrace sampleEnv).filter isFileWrite
      = [Event.fileWrite (sampleEnv.tmpPath ++ "/" ++ outfile)
          (prohibited_pattern sampleEnv.pick)] :=
  (setup_writes_single_payload_file sampleEnv rfl (by decide)).1

/-- Witness for C2 at a concrete index sequence. -/
theorem secret_key_length_and_alphabet_witness :
    (generate_random_aws_secret_key (fun _ => 0)).length = 40 :=
  (secret_key_length_and_alphabet (fun _ => 0)).1

/-- Witness for C9 at a concrete index sequence. -/
theorem access_key_length_and_alphabet_witness :
    (generate_random_aws_access_key (fun _ => 0)).length = 20 ∧
    (generate_random_aws_access_key (fun _ => 0)).toList.take 4 = "AKIA".toList :=
  ⟨(access_key_length_and_alphabet (fun _ => 0)).1,
   (access_key_length_and_alphabet (fun _ => 0)).2.1⟩

/-- Witness for C10 at the concrete argparse failure code 2. -/
theorem parse_args_failure_exits_zero_witness :
    parse_args (ArgparseOutcome.sysExit 2) = Except.error 0 :=
  (parse_args_failure_exits_zero 2 true).1

end GitSecretsUnittest
